import Mathlib

/-!
Verification of the fingertips_py client library (api_calls.py, metadata.py,
retrieve_data.py) against its natural-language specification.

The embedding models the network as an explicit environment `Env`:
`getJson` is the parsed-JSON result of `requests.get` + `json.loads` (used by
`make_request`, `get_json`, `get_data_in_dict`); `readCsv` is the outcome of
`pd.read_csv(url)` on a remote CSV (success, HTTP-level error, or
URL/connection-level error); `csvNoVerify` is the outcome of
`deal_with_url_error(url)` (a `requests.get(url, verify=False)` followed by a
CSV parse).  Each embedded operation additionally returns the ordered list of
CSV requests it issued, as `(url, verify)` pairs, so that request-count
properties can be stated.  Python exceptions are modelled with `Except`:
`NameError(msg)` and `Exception(msg)` keep their messages, while exceptions
that no handler in this code catches (AttributeError, KeyError, IndexError,
TypeError, errors escaping `deal_with_url_error`) are collapsed into
dedicated constructors.  The `is_test` parameters only additionally return
the constructed URL and are not modelled; the request log already records
every constructed URL.
-/

/-- A JSON value.  Booleans and floats do not occur in any claim and are
omitted from the model. -/
inductive JVal where
  | null : JVal
  | str : String → JVal
  | int : Int → JVal
  | arr : List JVal → JVal
  | obj : List (String × JVal) → JVal

/-- A CSV row: column name to cell text. -/
abbrev Row := List (String × String)

/-- A parsed CSV body, before a pandas index is attached. -/
abbrev Raw := List Row

/-- A pandas dataframe: rows with their integer index labels.
`pd.read_csv` yields labels `0..n-1`; `pd.concat` keeps each part's labels. -/
abbrev Table := List (Nat × Row)

/-- Attach the fresh `0..n-1` index `pd.read_csv` gives a parsed CSV. -/
def mkDf (raw : Raw) : Table := raw.enum

/-- Outcome of an attempt to read a remote CSV. -/
inductive FetchOutcome where
  | ok : Raw → FetchOutcome
  | httpNotFound : FetchOutcome
  | urlError : FetchOutcome
deriving DecidableEq

/-- The remote service, as seen through the transport primitives. -/
structure Env where
  getJson : String → JVal
  readCsv : String → FetchOutcome
  csvNoVerify : String → FetchOutcome

/-- A CSV request issued: URL and whether TLS verification was on. -/
abbrev Request := String × Bool

/-- Python exceptions raised by this code.  `unhandled` stands for any
exception no handler in the source catches (AttributeError, KeyError,
IndexError, TypeError, or an error escaping `deal_with_url_error`). -/
inductive PyErr where
  | nameError : String → PyErr
  | exceptionMsg : String → PyErr
  | indexError : PyErr
  | unhandled : PyErr
deriving DecidableEq

/-- Python `str.lower()` (ASCII, which covers every string in the claims). -/
def pyLower (s : String) : String := ⟨s.data.map Char.toLower⟩

/-- `needle` is a prefix of `hay` (character lists). -/
def isPrefixChars : List Char → List Char → Bool
  | [], _ => true
  | _ :: _, [] => false
  | a :: as, b :: bs => a == b && isPrefixChars as bs

/-- Contiguous-substring test on character lists (Python `in` on strings). -/
def hasSub (needle : List Char) : List Char → Bool
  | [] => needle.isEmpty
  | c :: t => isPrefixChars needle (c :: t) || hasSub needle t

/-- Python `needle in hay` for strings. -/
def strIn (needle hay : String) : Bool := hasSub needle.data hay.data

/-- First binding of a field in a JSON object (Python dicts have unique
keys, so first = only). -/
def objLookup : List (String × JVal) → String → Option JVal
  | [], _ => none
  | (k, v) :: rest, key => if k == key then some v else objLookup rest key

/-- Python `dict.get(key)`: the value, or `None` when absent. -/
def objGet (o : List (String × JVal)) (key : String) : JVal :=
  (objLookup o key).getD .null

/-- Python dict-key equality for the hashable JSON scalars.  Containers
never compare equal here because they are rejected by `isHashable` before
any comparison happens. -/
def scalarEq : JVal → JVal → Bool
  | .null, .null => true
  | .str a, .str b => a == b
  | .int a, .int b => a == b
  | _, _ => false

/-- Whether a JSON value may be used as a Python dict key. -/
def isHashable : JVal → Bool
  | .arr _ => false
  | .obj _ => false
  | _ => true

/-- A Python dict built by repeated `d[k] = v`, as an ordered association
list: updating an existing key keeps its position, a new key is appended. -/
abbrev PyDict := List (JVal × JVal)

/-- `d[k] = v` on a dict already known to have hashable keys. -/
def insertScalar : PyDict → JVal → JVal → PyDict
  | [], k, v => [(k, v)]
  | (k0, v0) :: rest, k, v =>
    if scalarEq k0 k then (k0, v) :: rest else (k0, v0) :: insertScalar rest k v

/-- `d[k] = v`, raising `TypeError` (unhandled) on an unhashable key. -/
def dictInsert (d : PyDict) (k v : JVal) : Except PyErr PyDict :=
  if isHashable k then .ok (insertScalar d k v) else .error .unhandled

/-- Build a dict from a list of key/value pairs, left to right. -/
def buildDict : List (JVal × JVal) → PyDict → Except PyErr PyDict
  | [], d => .ok d
  | (k, v) :: rest, d => do buildDict rest (← dictInsert d k v)

/-- `dict.values()` in insertion order. -/
def dictValues (d : PyDict) : List JVal := d.map Prod.snd

/-- Interpret a JSON value as the list of objects the code iterates over;
anything else makes the iteration raise (unhandled). -/
def objsOf : List JVal → Except PyErr (List (List (String × JVal)))
  | [] => .ok []
  | .obj o :: rest => do
    let r ← objsOf rest
    .ok (o :: r)
  | _ :: _ => .error .unhandled

def base_url : String := "https://fingertips.phe.org.uk/api/"

/-! ## api_calls.py -/

/-- `make_request(url, attr)` loop body: for each object, `name = item.pop(attr)`
then `data[name] = item`.  A missing `attr` raises KeyError; a non-object item
raises AttributeError; both are unhandled. -/
def makeReqLoop (attr : String) : List JVal → PyDict → Except PyErr PyDict
  | [], d => .ok d
  | .obj o :: rest, d =>
    match objLookup o attr with
    | none => .error .unhandled
    | some v => do
      let d2 ← dictInsert d v (.obj (o.filter (fun p => p.1 != attr)))
      makeReqLoop attr rest d2
  | _ :: _, _ => .error .unhandled

/-- `api_calls.make_request(url, attr)`: fetch JSON, pop `attr` from every
object and key the result by the popped value. -/
def make_request (env : Env) (url : String) (attr : String) : Except PyErr PyDict :=
  match env.getJson url with
  | .arr items => makeReqLoop attr items []
  | _ => .error .unhandled

/-- `api_calls.get_data_in_dict(url, key, value)`: fetch JSON; when `key` is
`None` default it to the first key of the first object (IndexError on an
empty list); then map each object's `key` value either to its `value` field
or to the whole object. -/
def get_data_in_dict (env : Env) (url : String)
    (key value : Option String) : Except PyErr PyDict :=
  match env.getJson url with
  | .arr items => do
    let objs ← objsOf items
    let k ← match key with
      | some k => pure k
      | none =>
        match objs with
        | [] => .error .indexError
        | o :: _ =>
          match o with
          | [] => .error .indexError
          | (k0, _) :: _ => pure k0
    let pairs := match value with
      | none => objs.map (fun o => (objGet o k, JVal.obj o))
      | some v => objs.map (fun o => (objGet o k, objGet o v))
    buildDict pairs []
  | _ => .error .unhandled

/-! ## CSV fetch plumbing shared by metadata.py and retrieve_data.py -/

/-- The pattern `try: pd.read_csv(url) / except HTTPError: raise NameError(msg)
/ except URLError: deal_with_url_error(url)` used by the single-ID CSV metadata
fetches.  Any failure inside `deal_with_url_error` is uncaught. -/
def singleCsvFetch (env : Env) (url : String) (msg : String) :
    List Request × Except PyErr Table :=
  match env.readCsv url with
  | .ok raw => ([(url, true)], .ok (mkDf raw))
  | .httpNotFound => ([(url, true)], .error (.nameError msg))
  | .urlError =>
    match env.csvNoVerify url with
    | .ok raw => ([(url, true), (url, false)], .ok (mkDf raw))
    | _ => ([(url, true), (url, false)], .error .unhandled)

/-! ## metadata.py -/

/-- A Python argument that may be absent, a number, a string, or a list.
List elements are kept in their `str()` form, which is all the code ever
uses of them. -/
inductive PyArg where
  | none : PyArg
  | int : Int → PyArg
  | str : String → PyArg
  | list : List String → PyArg
deriving DecidableEq

/-- Python truthiness of such an argument. -/
def pyTruthy : PyArg → Bool
  | .none => false
  | .int n => n != 0
  | .str s => !s.isEmpty
  | .list l => !l.isEmpty

/-- `str(x)` for a non-list argument (`str(None)` is the text `None`). -/
def pyArgStr : PyArg → String
  | .none => "None"
  | .int n => toString n
  | .str s => s
  | .list l => String.intercalate "," l

/-- The string substituted into the indicator-metadata URL:
`','.join(map(str, ids))` for a list, `str(ids)` otherwise. -/
def idsStr : PyArg → String
  | .list l => String.intercalate "," l
  | x => pyArgStr x

def indMetaUrl (ids : String) : String :=
  base_url ++ "indicator_metadata/csv/by_indicator_id?indicator_ids=" ++ ids

def domainMetaUrl (id : String) : String :=
  base_url ++ "indicator_metadata/csv/by_group_id?group_id=" ++ id

def profileMetaUrl (id : String) : String :=
  base_url ++ "indicator_metadata/csv/by_profile_id?profile_id=" ++ id

/-- The per-ID loop shared by `get_metadata_for_domain_as_dataframe` and
`get_metadata_for_profile_as_dataframe` for list arguments: one fetch per ID;
`HTTPError` raises `NameError(f'{ename} {id} does not exist')` and aborts;
`URLError` falls back to `deal_with_url_error`, whose result *replaces* the
accumulator (`df = deal_with_url_error(...)` in the source), after which the
loop continues. -/
def metaBatchLoop (env : Env) (mkUrl : String → String) (ename : String) :
    List String → Table → List Request × Except PyErr Table
  | [], acc => ([], .ok acc)
  | id :: rest, acc =>
    let url := mkUrl id
    match env.readCsv url with
    | .ok raw =>
      let (reqs, r) := metaBatchLoop env mkUrl ename rest (acc ++ mkDf raw)
      ((url, true) :: reqs, r)
    | .httpNotFound =>
      ([(url, true)], .error (.nameError (ename ++ " " ++ id ++ " does not exist")))
    | .urlError =>
      match env.csvNoVerify url with
      | .ok raw =>
        let (reqs, r) := metaBatchLoop env mkUrl ename rest (mkDf raw)
        ((url, true) :: (url, false) :: reqs, r)
      | _ => ([(url, true), (url, false)], .error .unhandled)

/-- `metadata.get_metadata_for_indicator_as_dataframe(indicator_ids)`:
one CSV fetch with the IDs comma-joined into a single batch URL. -/
def get_metadata_for_indicator_as_dataframe (env : Env) (indicator_ids : PyArg) :
    List Request × Except PyErr Table :=
  let s := idsStr indicator_ids
  singleCsvFetch env (indMetaUrl s) ("Indicator " ++ s ++ " does not exist")

/-- `metadata.get_metadata_for_domain_as_dataframe(group_ids)`: one fetch per
ID for a list, a single fetch otherwise. -/
def get_metadata_for_domain_as_dataframe (env : Env) (group_ids : PyArg) :
    List Request × Except PyErr Table :=
  match group_ids with
  | .list l => metaBatchLoop env domainMetaUrl "Domain" l []
  | x =>
    let s := pyArgStr x
    singleCsvFetch env (domainMetaUrl s) ("Domain " ++ s ++ " does not exist")

/-- `metadata.get_metadata_for_profile_as_dataframe(profile_ids)`: one fetch
per ID for a list, a single fetch otherwise. -/
def get_metadata_for_profile_as_dataframe (env : Env) (profile_ids : PyArg) :
    List Request × Except PyErr Table :=
  match profile_ids with
  | .list l => metaBatchLoop env profileMetaUrl "Profile" l []
  | x =>
    let s := pyArgStr x
    singleCsvFetch env (profileMetaUrl s) ("Profile " ++ s ++ " does not exist")

/-- Run `b` only when `a` succeeded, concatenating tables and request logs
(Python evaluates the second fetch lazily; an exception aborts). -/
def seqConcat (a : List Request × Except PyErr Table)
    (b : Unit → List Request × Except PyErr Table) :
    List Request × Except PyErr Table :=
  match a with
  | (reqs, .error e) => (reqs, .error e)
  | (reqs, .ok t) =>
    match b () with
    | (reqs2, .ok t2) => (reqs ++ reqs2, .ok (t ++ t2))
    | (reqs2, .error e) => (reqs ++ reqs2, .error e)

/-- `metadata.get_metadata(indicator_ids, domain_ids, profile_ids)`: branch on
the truthiness of the three arguments, fetch each provided dimension and
concatenate profile, then domain, then indicator tables; raise `NameError`
when every argument is falsy. -/
def get_metadata (env : Env) (indicator_ids domain_ids profile_ids : PyArg) :
    List Request × Except PyErr Table :=
  if pyTruthy indicator_ids && pyTruthy domain_ids && pyTruthy profile_ids then
    seqConcat
      (seqConcat (get_metadata_for_profile_as_dataframe env profile_ids)
        (fun _ => get_metadata_for_domain_as_dataframe env domain_ids))
      (fun _ => get_metadata_for_indicator_as_dataframe env indicator_ids)
  else if pyTruthy indicator_ids && pyTruthy domain_ids then
    seqConcat (get_metadata_for_domain_as_dataframe env domain_ids)
      (fun _ => get_metadata_for_indicator_as_dataframe env indicator_ids)
  else if pyTruthy indicator_ids && pyTruthy profile_ids then
    seqConcat (get_metadata_for_profile_as_dataframe env profile_ids)
      (fun _ => get_metadata_for_indicator_as_dataframe env indicator_ids)
  else if pyTruthy domain_ids && pyTruthy profile_ids then
    seqConcat (get_metadata_for_profile_as_dataframe env profile_ids)
      (fun _ => get_metadata_for_domain_as_dataframe env domain_ids)
  else if pyTruthy profile_ids then
    get_metadata_for_profile_as_dataframe env profile_ids
  else if pyTruthy domain_ids then
    get_metadata_for_domain_as_dataframe env domain_ids
  else if pyTruthy indicator_ids then
    get_metadata_for_indicator_as_dataframe env indicator_ids
  else
    ([], .error (.nameError
      "At least one of indicator_ids, domain_ids, or profile_ids must be provided."))

def indicatorMetaJsonUrl (n : String) : String :=
  base_url ++ "indicator_metadata/by_indicator_id?indicator_ids=" ++ n

/-- `metadata.get_metadata_for_indicator(indicator_number)`: fetch the JSON
object and take its entry for `str(indicator_number)` (`.get`, so `None` when
absent); `.get` on a non-object response is unhandled. -/
def get_metadata_for_indicator (env : Env) (n : String) : Except PyErr JVal :=
  match env.getJson (indicatorMetaJsonUrl n) with
  | .obj top => .ok (objGet top n)
  | _ => .error .unhandled

/-- `metadata.get_multiplier_and_calculation_for_indicator(indicator_number)`:
multiplier is `metadata['Unit']['Value']`; the calculation method is `Wilson`
when the lower-cased `ConfidenceIntervalMethod.Name` contains `wilson`, else
`Byar` when it contains `byar`, else `None`.  Attribute access on `None` or
`.lower()` on a non-string is unhandled. -/
def get_multiplier_and_calculation_for_indicator (env : Env) (n : String) :
    Except PyErr (JVal × Option String) :=
  match get_metadata_for_indicator env n with
  | .error e => .error e
  | .ok (.obj m) =>
    match objGet m "Unit" with
    | .obj u =>
      match objGet m "ConfidenceIntervalMethod" with
      | .obj c =>
        match objGet c "Name" with
        | .str nm =>
          let low := pyLower nm
          if strIn "wilson" low then .ok (objGet u "Value", some "Wilson")
          else if strIn "byar" low then .ok (objGet u "Value", some "Byar")
          else .ok (objGet u "Value", none)
        | _ => .error .unhandled
      | _ => .error .unhandled
    | _ => .error .unhandled
  | .ok _ => .error .unhandled

def profilesUrl : String := base_url ++ "profiles"

/-- `metadata.get_all_profiles()`: the profiles dict, keyed by the first
field of the first profile object. -/
def get_all_profiles (env : Env) : Except PyErr PyDict :=
  get_data_in_dict env profilesUrl none none

/-- Outcome of the profile searches, which return either the profile object
or the literal message `Profile could not be found`. -/
inductive ProfileResult where
  | found : JVal → ProfileResult
  | notFound : ProfileResult

/-- The `for profile in all_profiles.values()` loop of `get_profile_by_name`:
remember the profile whenever the lower-cased search term occurs in its
lower-cased `Name`; `.lower()` on a missing or non-string `Name` is
unhandled. -/
def profileSearchLoop (term : String) :
    List JVal → Option JVal → Except PyErr (Option JVal)
  | [], acc => .ok acc
  | .obj o :: rest, acc =>
    match objGet o "Name" with
    | .str s =>
      profileSearchLoop term rest
        (if strIn (pyLower term) (pyLower s) then some (.obj o) else acc)
    | _ => .error .unhandled
  | _ :: _, _ => .error .unhandled

/-- `metadata.get_profile_by_name(profile_name)`: case-insensitive substring
search over all profile names, last match wins; a falsy final value (initial
empty string, or an empty matched object) yields the not-found message. -/
def get_profile_by_name (env : Env) (profile_name : String) :
    Except PyErr ProfileResult :=
  match get_all_profiles env with
  | .error e => .error e
  | .ok all =>
    match profileSearchLoop profile_name (dictValues all) none with
    | .error e => .error e
    | .ok none => .ok .notFound
    | .ok (some (.obj [])) => .ok .notFound
    | .ok (some p) => .ok (.found p)

/-! ## retrieve_data.py : get_all_data_for_profile -/

def areaTypesForProfileUrl (pid : String) : String :=
  base_url ++ "area_types?profile_ids=" ++ pid

/-- `str(x)` for a JSON value interpolated into an f-string.  Containers can
not reach an URL in the claims; their text is irrelevant, not their case. -/
def pyStr : JVal → String
  | .null => "None"
  | .str s => s
  | .int n => toString n
  | .arr _ => "[...]"
  | .obj _ => "{...}"

/-- Extract `value.get('Id')` from every value of the area-types dict
(`get_area_type_ids_for_profile`); `.get` on a non-object is unhandled. -/
def idsOfValues : List JVal → Except PyErr (List JVal)
  | [] => .ok []
  | .obj o :: rest => do
    let r ← idsOfValues rest
    .ok (objGet o "Id" :: r)
  | _ :: _ => .error .unhandled

/-- `metadata.get_area_type_ids_for_profile(profile_id)`: the `Id` field of
every entry of the per-profile area-types dict, in source order. -/
def get_area_type_ids_for_profile (env : Env) (pid : String) :
    Except PyErr (List JVal) :=
  match get_data_in_dict env (areaTypesForProfileUrl pid) none none with
  | .error e => .error e
  | .ok d => idsOfValues (dictValues d)

/-- The area-type set of `get_all_data_for_profile`, as the strings that are
interpolated into the per-area URL: `None` resolves via the profile;
`type(area_type_id) == int` wraps into a one-element list; any other value
(a string, or a list) is iterated as-is — a string is iterated
character-by-character. -/
def areaTypesFor (env : Env) (pid : String) : PyArg → Except PyErr (List String)
  | .none =>
    match get_area_type_ids_for_profile env pid with
    | .error e => .error e
    | .ok ids => .ok (ids.map pyStr)
  | .int n => .ok [toString n]
  | .str s => .ok (s.data.map (fun c => String.mk [c]))
  | .list l => .ok l

def profileDataUrl (area parent pid : String) : String :=
  base_url ++ "all_data/csv/by_profile_id?child_area_type_id=" ++ area ++
    "&parent_area_type_id=" ++ parent ++ "&profile_id=" ++ pid

/-- The per-area-type fetch loop of `get_all_data_for_profile`: `HTTPError`
raises `Exception('There has been a server error with Fingertips for this
request. ')`; `URLError` falls back to `deal_with_url_error`; the returned
table is concatenated onto the accumulator after the try/except. -/
def profileDataLoop (env : Env) (pid parent : String) :
    List String → Table → List Request × Except PyErr Table
  | [], acc => ([], .ok acc)
  | area :: rest, acc =>
    let url := profileDataUrl area parent pid
    match env.readCsv url with
    | .ok raw =>
      let (reqs, r) := profileDataLoop env pid parent rest (acc ++ mkDf raw)
      ((url, true) :: reqs, r)
    | .httpNotFound =>
      ([(url, true)], .error (.exceptionMsg
        "There has been a server error with Fingertips for this request. "))
    | .urlError =>
      match env.csvNoVerify url with
      | .ok raw =>
        let (reqs, r) := profileDataLoop env pid parent rest (acc ++ mkDf raw)
        ((url, true) :: (url, false) :: reqs, r)
      | _ => ([(url, true), (url, false)], .error .unhandled)

/-- `df.reset_index()` without `drop`: the old index labels become a leading
`index` column and the rows are relabelled `0..n-1`. -/
def resetIndex (t : Table) : Table :=
  (t.map (fun p => (("index", toString p.1) :: p.2))).enum

/-- Look a column up in a row (pandas cell access; a row from a fetch that
lacked the column holds NaN there, which compares unequal to every code). -/
def rowGet : Row → String → Option String
  | [], _ => none
  | (c, v) :: rest, col => if c == col then some v else rowGet rest col

/-- The `if filter_by_area_codes:` tail of `get_all_data_for_profile`: a
truthy list keeps rows whose `Area Code` is in the list, a truthy string
keeps rows equal to it, any other truthy value filters nothing; in every
truthy case the index is then reset.  A falsy value skips the whole block. -/
def applyAreaFilter (df : Table) (f : PyArg) : Table :=
  if pyTruthy f then
    let df2 := match f with
      | .list codes =>
        df.filter (fun p => match rowGet p.2 "Area Code" with
          | some v => codes.contains v
          | none => false)
      | .str code =>
        df.filter (fun p => match rowGet p.2 "Area Code" with
          | some v => v == code
          | none => false)
      | _ => df
    resetIndex df2
  else df

/-- `retrieve_data.get_all_data_for_profile(profile_id, parent_area_type_id,
area_type_id, filter_by_area_codes)`: resolve the area-type set, fetch once
per area type concatenating the tables, then apply the area-code filter. -/
def get_all_data_for_profile (env : Env) (pid parent : String)
    (area_type_id filter_by_area_codes : PyArg) :
    List Request × Except PyErr Table :=
  match areaTypesFor env pid area_type_id with
  | .error e => ([], .error e)
  | .ok areas =>
    let pr := profileDataLoop env pid parent areas []
    match pr.2 with
    | .error e => (pr.1, .error e)
    | .ok df => (pr.1, .ok (applyAreaFilter df filter_by_area_codes))

/-! ## Claim C2 -/

/-- C2: for a CSV metadata fetch, an HTTP-level not-found raises the
entity-not-found error (`NameError` naming the entity) without issuing any
relaxed-transport (no-verify) request, while a URL/connection-level error
issues exactly one no-verify retry and, when it succeeds, its table is
returned in place of the error. -/
theorem csv_metadata_fetch_error_paths (env : Env) (ids : PyArg) (raw : Raw) :
    (env.readCsv (indMetaUrl (idsStr ids)) = .httpNotFound →
      get_metadata_for_indicator_as_dataframe env ids =
        ([(indMetaUrl (idsStr ids), true)],
         .error (.nameError ("Indicator " ++ idsStr ids ++ " does not exist")))) ∧
    (env.readCsv (indMetaUrl (idsStr ids)) = .urlError →
     env.csvNoVerify (indMetaUrl (idsStr ids)) = .ok raw →
      get_metadata_for_indicator_as_dataframe env ids =
        ([(indMetaUrl (idsStr ids), true), (indMetaUrl (idsStr ids), false)],
         .ok (mkDf raw))) := by
  constructor
  · intro h
    simp [get_metadata_for_indicator_as_dataframe, singleCsvFetch, h]
  · intro h h2
    simp [get_metadata_for_indicator_as_dataframe, singleCsvFetch, h, h2]

/-- A service where indicator 999999 is absent (HTTP not-found) and the
fetch for indicator 7 hits a connection-level error whose no-verify retry
succeeds. -/
def c2Env : Env where
  getJson := fun _ => .null
  readCsv := fun url =>
    if url = indMetaUrl "999999" then .httpNotFound
    else if url = indMetaUrl "7" then .urlError
    else .ok []
  csvNoVerify := fun _ => .ok [[("Indicator ID", "7")]]

/-- Witness for C2 at indicator IDs 999999 (not-found) and 7 (URL error). -/
theorem csv_metadata_fetch_error_paths_witness :
    (get_metadata_for_indicator_as_dataframe c2Env (.int 999999) =
      ([(indMetaUrl "999999", true)],
       .error (.nameError "Indicator 999999 does not exist"))) ∧
    (get_metadata_for_indicator_as_dataframe c2Env (.int 7) =
      ([(indMetaUrl "7", true), (indMetaUrl "7", false)],
       .ok (mkDf [[("Indicator ID", "7")]]))) :=
  ⟨(csv_metadata_fetch_error_paths c2Env (.int 999999) []).1 rfl,
   (csv_metadata_fetch_error_paths c2Env (.int 7) [[("Indicator ID", "7")]]).2 rfl rfl⟩

/-! ## Claim C10 -/

/-- C10: `get_metadata` decides whether a dimension was provided by Python
truthiness, not presence: with only `indicator_ids=0` it raises the
missing-parameter `NameError`, and in combined calls a falsy dimension is
treated exactly as an absent one (silently omitted from the result). -/
theorem get_metadata_truthiness (env : Env) (d : PyArg)
    (hd : pyTruthy d = false) :
    (get_metadata env (.int 0) .none .none =
      ([], .error (.nameError
        "At least one of indicator_ids, domain_ids, or profile_ids must be provided."))) ∧
    (∀ ind prof : PyArg, pyTruthy ind = true → pyTruthy prof = true →
      get_metadata env ind d prof = get_metadata env ind .none prof) := by
  refine ⟨rfl, ?_⟩
  intro ind prof hi hp
  simp [get_metadata, hd, hi, hp, show pyTruthy .none = false from rfl]

/-- Witness for C10: `indicator_ids=0` alone raises, and a combined call
with `domain_ids=[]` equals the call without domain IDs. -/
theorem get_metadata_truthiness_witness :
    (get_metadata c2Env (.int 0) .none .none =
      ([], .error (.nameError
        "At least one of indicator_ids, domain_ids, or profile_ids must be provided."))) ∧
    get_metadata c2Env (.str "7") (.list []) (.int 3) =
      get_metadata c2Env (.str "7") .none (.int 3) :=
  ⟨(get_metadata_truthiness c2Env (.list []) rfl).1,
   (get_metadata_truthiness c2Env (.list []) rfl).2 (.str "7") (.int 3) rfl rfl⟩

/-! ## Claim C4 -/

/-- C4: `get_metadata` with none of the three IDs raises the
missing-parameter `NameError`; with all three it returns the concatenation
profile table, then domain table, then indicator table, whose row count is
the sum of the three individually fetched tables' row counts. -/
theorem get_metadata_all_three_concatenation (env : Env)
    (ind dom prof : PyArg)
    (hi : pyTruthy ind = true) (hd : pyTruthy dom = true)
    (hp : pyTruthy prof = true)
    (rp rd ri : List Request) (tp td ti : Table)
    (hP : get_metadata_for_profile_as_dataframe env prof = (rp, .ok tp))
    (hD : get_metadata_for_domain_as_dataframe env dom = (rd, .ok td))
    (hI : get_metadata_for_indicator_as_dataframe env ind = (ri, .ok ti)) :
    (get_metadata env .none .none .none =
      ([], .error (.nameError
        "At least one of indicator_ids, domain_ids, or profile_ids must be provided."))) ∧
    get_metadata env ind dom prof = (rp ++ rd ++ ri, .ok (tp ++ td ++ ti)) ∧
    (tp ++ td ++ ti).length = tp.length + td.length + ti.length := by
  refine ⟨rfl, ?_, by simp [Nat.add_assoc]⟩
  simp [get_metadata, hi, hd, hp, seqConcat, hP, hD, hI]

/-- A service with one metadata row per profile 3, domain 2, indicator 1. -/
def c4Env : Env where
  getJson := fun _ => .null
  readCsv := fun url =>
    if url = profileMetaUrl "3" then .ok [[("Indicator ID", "10")]]
    else if url = domainMetaUrl "2" then .ok [[("Indicator ID", "20")], [("Indicator ID", "21")]]
    else if url = indMetaUrl "1" then .ok [[("Indicator ID", "1")]]
    else .httpNotFound
  csvNoVerify := fun _ => .ok []

/-- Witness for C4 at `indicator_ids=1, domain_ids=2, profile_ids=3`. -/
theorem get_metadata_all_three_concatenation_witness :
    (get_metadata c4Env .none .none .none =
      ([], .error (.nameError
        "At least one of indicator_ids, domain_ids, or profile_ids must be provided."))) ∧
    get_metadata c4Env (.int 1) (.int 2) (.int 3) =
      ([(profileMetaUrl "3", true), (domainMetaUrl "2", true), (indMetaUrl "1", true)],
       .ok (mkDf [[("Indicator ID", "10")]] ++
            mkDf [[("Indicator ID", "20")], [("Indicator ID", "21")]] ++
            mkDf [[("Indicator ID", "1")]])) ∧
    (mkDf [[("Indicator ID", "10")]] ++
     mkDf [[("Indicator ID", "20")], [("Indicator ID", "21")]] ++
     mkDf [[("Indicator ID", "1")]]).length =
      (mkDf [[("Indicator ID", "10")]]).length +
      (mkDf [[("Indicator ID", "20")], [("Indicator ID", "21")]]).length +
      (mkDf [[("Indicator ID", "1")]]).length :=
  get_metadata_all_three_concatenation c4Env (.int 1) (.int 2) (.int 3)
    rfl rfl rfl _ _ _ _ _ _ rfl rfl rfl

/-! ## Claim C1 -/

/-- When every per-ID fetch succeeds, the batch loop issues one verified
request per ID in input order and concatenates the per-ID tables in that
order onto the accumulator. -/
theorem metaBatchLoop_all_ok (env : Env) (mkUrl : String → String)
    (ename : String) (raws : String → Raw) :
    ∀ (ids : List String) (acc : Table),
      (∀ i ∈ ids, env.readCsv (mkUrl i) = .ok (raws i)) →
      metaBatchLoop env mkUrl ename ids acc =
        (ids.map (fun i => (mkUrl i, true)),
         .ok (acc ++ (ids.map (fun i => mkDf (raws i))).flatten)) := by
  intro ids
  induction ids with
  | nil => intro acc _; simp [metaBatchLoop]
  | cons id rest ih =>
    intro acc h
    have h1 : env.readCsv (mkUrl id) = .ok (raws id) := h id (by simp)
    have h2 : ∀ i ∈ rest, env.readCsv (mkUrl i) = .ok (raws i) :=
      fun i hi => h i (by simp [hi])
    simp [metaBatchLoop, h1, ih (acc ++ mkDf (raws id)) h2]

/-- When the fetch for `bad` reports HTTP not-found and every fetch before it
succeeds, the batch loop stops right after the `bad` request and raises the
per-ID `NameError`, discarding the accumulated rows. -/
theorem metaBatchLoop_aborts (env : Env) (mkUrl : String → String)
    (ename : String) (raws : String → Raw) :
    ∀ (pre : List String) (bad : String) (post : List String) (acc : Table),
      (∀ i ∈ pre, env.readCsv (mkUrl i) = .ok (raws i)) →
      env.readCsv (mkUrl bad) = .httpNotFound →
      metaBatchLoop env mkUrl ename (pre ++ bad :: post) acc =
        (pre.map (fun i => (mkUrl i, true)) ++ [(mkUrl bad, true)],
         .error (.nameError (ename ++ " " ++ bad ++ " does not exist"))) := by
  intro pre
  induction pre with
  | nil => intro bad post acc _ hbad; simp [metaBatchLoop, hbad]
  | cons id rest ih =>
    intro bad post acc h hbad
    have h1 : env.readCsv (mkUrl id) = .ok (raws id) := h id (by simp)
    have h2 : ∀ i ∈ rest, env.readCsv (mkUrl i) = .ok (raws i) :=
      fun i hi => h i (by simp [hi])
    simp [metaBatchLoop, h1, ih bad post _ h2 hbad]

/-- C1: a multi-ID metadata batch call on the domain or on the profile
endpoint with N IDs issues exactly N requests, one per ID in input order, and
returns the order-preserving concatenation whose row count is the sum of the
per-request row counts; an HTTP-level not-found for an ID raises the
entity-not-found `NameError` naming that ID, aborts the remaining iterations
and discards the partial rows. -/
theorem multi_id_metadata_batch (env : Env) (ids : List String)
    (raws : String → Raw) (pre : List String) (bad : String)
    (post : List String)
    (hdom : ∀ i ∈ ids, env.readCsv (domainMetaUrl i) = .ok (raws i))
    (hpro : ∀ i ∈ ids, env.readCsv (profileMetaUrl i) = .ok (raws i))
    (hpreD : ∀ i ∈ pre, env.readCsv (domainMetaUrl i) = .ok (raws i))
    (hbadD : env.readCsv (domainMetaUrl bad) = .httpNotFound)
    (hpreP : ∀ i ∈ pre, env.readCsv (profileMetaUrl i) = .ok (raws i))
    (hbadP : env.readCsv (profileMetaUrl bad) = .httpNotFound) :
    (get_metadata_for_domain_as_dataframe env (.list ids) =
      (ids.map (fun i => (domainMetaUrl i, true)),
       .ok ((ids.map (fun i => mkDf (raws i))).flatten))) ∧
    (get_metadata_for_profile_as_dataframe env (.list ids) =
      (ids.map (fun i => (profileMetaUrl i, true)),
       .ok ((ids.map (fun i => mkDf (raws i))).flatten))) ∧
    ((ids.map (fun i => mkDf (raws i))).flatten).length =
      (ids.map (fun i => (raws i).length)).sum ∧
    (get_metadata_for_domain_as_dataframe env (.list (pre ++ bad :: post)) =
      (pre.map (fun i => (domainMetaUrl i, true)) ++ [(domainMetaUrl bad, true)],
       .error (.nameError ("Domain " ++ bad ++ " does not exist")))) ∧
    (get_metadata_for_profile_as_dataframe env (.list (pre ++ bad :: post)) =
      (pre.map (fun i => (profileMetaUrl i, true)) ++ [(profileMetaUrl bad, true)],
       .error (.nameError ("Profile " ++ bad ++ " does not exist")))) := by
  refine ⟨?_, ?_, ?_, ?_, ?_⟩
  · simpa [get_metadata_for_domain_as_dataframe] using
      metaBatchLoop_all_ok env domainMetaUrl "Domain" raws ids [] hdom
  · simpa [get_metadata_for_profile_as_dataframe] using
      metaBatchLoop_all_ok env profileMetaUrl "Profile" raws ids [] hpro
  · simp [List.length_flatten, List.map_map, Function.comp_def, mkDf,
      List.enum_length]
  · simpa [get_metadata_for_domain_as_dataframe] using
      metaBatchLoop_aborts env domainMetaUrl "Domain" raws pre bad post [] hpreD hbadD
  · simpa [get_metadata_for_profile_as_dataframe] using
      metaBatchLoop_aborts env profileMetaUrl "Profile" raws pre bad post [] hpreP hbadP

/-- A service where domain/profile metadata for IDs 1 and 2 exists (one and
two rows respectively) and ID 9 is absent. -/
def c1Env : Env where
  getJson := fun _ => .null
  readCsv := fun url =>
    if url = domainMetaUrl "9" ∨ url = profileMetaUrl "9" then .httpNotFound
    else if url = domainMetaUrl "2" ∨ url = profileMetaUrl "2" then
      .ok [[("Indicator ID", "20")], [("Indicator ID", "21")]]
    else .ok [[("Indicator ID", "10")]]
  csvNoVerify := fun _ => .ok []

/-- The raw tables `c1Env` serves per ID. -/
def c1Raws : String → Raw := fun i =>
  if i = "2" then [[("Indicator ID", "20")], [("Indicator ID", "21")]]
  else [[("Indicator ID", "10")]]

/-- Witness for C1 at IDs `[1, 2]` (success) and `[1, 9]` (abort at 9). -/
theorem multi_id_metadata_batch_witness :
    (get_metadata_for_domain_as_dataframe c1Env (.list ["1", "2"]) =
      (["1", "2"].map (fun i => (domainMetaUrl i, true)),
       .ok ((["1", "2"].map (fun i => mkDf (c1Raws i))).flatten))) ∧
    (get_metadata_for_profile_as_dataframe c1Env (.list ["1", "2"]) =
      (["1", "2"].map (fun i => (profileMetaUrl i, true)),
       .ok ((["1", "2"].map (fun i => mkDf (c1Raws i))).flatten))) ∧
    ((["1", "2"].map (fun i => mkDf (c1Raws i))).flatten).length =
      (["1", "2"].map (fun i => (c1Raws i).length)).sum ∧
    (get_metadata_for_domain_as_dataframe c1Env (.list (["1"] ++ "9" :: [])) =
      (["1"].map (fun i => (domainMetaUrl i, true)) ++ [(domainMetaUrl "9", true)],
       .error (.nameError ("Domain " ++ "9" ++ " does not exist")))) ∧
    (get_metadata_for_profile_as_dataframe c1Env (.list (["1"] ++ "9" :: [])) =
      (["1"].map (fun i => (profileMetaUrl i, true)) ++ [(profileMetaUrl "9", true)],
       .error (.nameError ("Profile " ++ "9" ++ " does not exist")))) :=
  multi_id_metadata_batch c1Env ["1", "2"] c1Raws ["1"] "9" []
    (by intro i hi; fin_cases hi <;> rfl)
    (by intro i hi; fin_cases hi <;> rfl)
    (by intro i hi; fin_cases hi; rfl)
    rfl
    (by intro i hi; fin_cases hi; rfl)
    rfl

/-! ## Claim C6 -/

/-- C6 (amended): `get_multiplier_and_calculation_for_indicator` returns the
metadata's `Unit.Value` as the multiplier and classifies the
confidence-interval method name case-insensitively: a name containing
`wilson` yields `Wilson`; a name containing `byar` but not `wilson` yields
`Byar`; a name containing neither yields `None`.  (The `wilson` check runs
first, so it wins when both substrings occur.) -/
theorem multiplier_and_calculation_classification (env : Env) (n : String)
    (top m u c : List (String × JVal)) (nm : String)
    (hresp : env.getJson (indicatorMetaJsonUrl n) = .obj top)
    (hmeta : objGet top n = .obj m)
    (hunit : objGet m "Unit" = .obj u)
    (hcim : objGet m "ConfidenceIntervalMethod" = .obj c)
    (hname : objGet c "Name" = .str nm) :
    (strIn "wilson" (pyLower nm) = true →
      get_multiplier_and_calculation_for_indicator env n =
        .ok (objGet u "Value", some "Wilson")) ∧
    (strIn "wilson" (pyLower nm) = false → strIn "byar" (pyLower nm) = true →
      get_multiplier_and_calculation_for_indicator env n =
        .ok (objGet u "Value", some "Byar")) ∧
    (strIn "wilson" (pyLower nm) = false → strIn "byar" (pyLower nm) = false →
      get_multiplier_and_calculation_for_indicator env n =
        .ok (objGet u "Value", none)) := by
  refine ⟨?_, ?_, ?_⟩ <;> intro h1 <;> try intro h2
  all_goals
    simp [get_multiplier_and_calculation_for_indicator,
      get_metadata_for_indicator, hresp, hmeta, hunit, hcim, hname, h1]
  all_goals simp [h2]

/-- Metadata for indicator 1 whose method name contains both `Wilson` and
`Byar`, for indicator 2 with a pure Byar method, and for indicator 3 with
neither. -/
def c6Env : Env where
  getJson := fun url =>
    if url = indicatorMetaJsonUrl "1" then
      .obj [("1", .obj [("Unit", .obj [("Value", .int 100)]),
        ("ConfidenceIntervalMethod", .obj [("Name", .str "Wilson or Byar")])])]
    else if url = indicatorMetaJsonUrl "2" then
      .obj [("2", .obj [("Unit", .obj [("Value", .int 1000)]),
        ("ConfidenceIntervalMethod", .obj [("Name", .str "BYARS method")])])]
    else if url = indicatorMetaJsonUrl "3" then
      .obj [("3", .obj [("Unit", .obj [("Value", .int 1)]),
        ("ConfidenceIntervalMethod", .obj [("Name", .str "Normal approximation")])])]
    else .null
  readCsv := fun _ => .ok []
  csvNoVerify := fun _ => .ok []

/-- C6 counterexample: the claim as stated says any method name containing
`byar` (any case) yields `Byar`; for the name `Wilson or Byar`, which
contains `byar` case-insensitively, the code yields `Wilson` instead,
because the `wilson` test runs first. -/
theorem multiplier_and_calculation_both_substrings :
    get_multiplier_and_calculation_for_indicator c6Env "1" =
      .ok (.int 100, some "Wilson") ∧
    strIn "byar" (pyLower "Wilson or Byar") = true ∧
    some "Wilson" ≠ (some "Byar" : Option String) := by
  refine ⟨rfl, rfl, by decide⟩

/-- Witness for C6 (amended) at a wilson-free Byar name and at a name with
neither substring. -/
theorem multiplier_and_calculation_classification_witness :
    (get_multiplier_and_calculation_for_indicator c6Env "2" =
      .ok (.int 1000, some "Byar")) ∧
    (get_multiplier_and_calculation_for_indicator c6Env "3" =
      .ok (.int 1, none)) :=
  ⟨(multiplier_and_calculation_classification c6Env "2" _ _ _ _ "BYARS method"
      rfl rfl rfl rfl rfl).2.1 rfl rfl,
   (multiplier_and_calculation_classification c6Env "3" _ _ _ _ "Normal approximation"
      rfl rfl rfl rfl rfl).2.2 rfl rfl⟩

/-! ## Claim C5 -/

/-- A service that serves one data row for every profile-data CSV URL. -/
def c5Env : Env where
  getJson := fun _ => .null
  readCsv := fun _ => .ok [[("Area Code", "E92000001"), ("Value", "1")]]
  csvNoVerify := fun _ => .ok []

/-- C5 failing input: `get_all_data_for_profile` with the single area-type ID
given as the string `102` iterates the string character by character (only
`type(area_type_id) == int` is wrapped in a list), issuing three fetches with
`child_area_type_id` 1, 0 and 2 instead of the one fetch for area type 102
that the claim (and the docstring, which allows a `str` ID) describes. -/
theorem all_data_for_profile_string_area_type_iterates_characters :
    (get_all_data_for_profile c5Env "99" "15" (.str "102") .none).1 =
      [(profileDataUrl "1" "15" "99", true),
       (profileDataUrl "0" "15" "99", true),
       (profileDataUrl "2" "15" "99", true)] ∧
    areaTypesFor c5Env "99" (.str "102") = .ok ["1", "0", "2"] := by
  exact ⟨rfl, rfl⟩

/-! ## Claim C8 -/

/-- A successful `get_all_data_for_profile` result is always the area-code
filter applied to the concatenated fetch table. -/
theorem get_all_data_for_profile_ok_shape (env : Env) (pid parent : String)
    (a f : PyArg) (t : Table)
    (h : (get_all_data_for_profile env pid parent a f).2 = .ok t) :
    ∃ df, t = applyAreaFilter df f := by
  unfold get_all_data_for_profile at h
  cases h1 : areaTypesFor env pid a with
  | error e => simp [h1] at h
  | ok areas =>
    simp only [h1] at h
    cases h2 : (profileDataLoop env pid parent areas []).2 with
    | error e => simp only [h2] at h; simp at h
    | ok df =>
      simp only [h2] at h
      simp at h
      exact ⟨df, h.symm⟩

/-- `reset_index` relabels the rows `0..n-1`. -/
theorem resetIndex_fst (t : Table) :
    (resetIndex t).map Prod.fst = List.range (resetIndex t).length := by
  simp [resetIndex, List.enum_map_fst, List.enum_length]

/-- The `index` column `reset_index` prepends never shadows `Area Code`. -/
theorem rowGet_resetIndex_mem (t : Table) (p : Nat × Row)
    (h : p ∈ resetIndex t) :
    ∃ q ∈ t, rowGet p.2 "Area Code" = rowGet q.2 "Area Code" := by
  have h2 : p.2 ∈ t.map (fun q => (("index", toString q.1) :: q.2)) :=
    List.snd_mem_of_mem_enum h
  rcases List.mem_map.1 h2 with ⟨q, hq, hpq⟩
  exact ⟨q, hq, by rw [← hpq]; simp [rowGet]⟩

/-- C8 (amended): `get_all_data_for_profile` given a truthy
`filter_by_area_codes` (a nonempty list of codes, or a nonempty single code)
returns only rows whose `Area Code` value is among the given codes, with the
row index freshly reset to the contiguous zero-based sequence, regardless of
how many per-area-type fetches were merged; a falsy value (the empty list or
the empty string) disables both the filter and the index reset. -/
theorem all_data_for_profile_area_code_filter (env : Env)
    (pid parent : String) (a : PyArg) (codes : List String) (code : String)
    (t : Table) (hcodes : codes.isEmpty = false) (hcode : code.isEmpty = false) :
    ((get_all_data_for_profile env pid parent a (.list codes)).2 = .ok t →
      (∀ p ∈ t, ∃ v, rowGet p.2 "Area Code" = some v ∧ codes.contains v = true) ∧
      t.map Prod.fst = List.range t.length) ∧
    ((get_all_data_for_profile env pid parent a (.str code)).2 = .ok t →
      (∀ p ∈ t, rowGet p.2 "Area Code" = some code) ∧
      t.map Prod.fst = List.range t.length) := by
  constructor
  · intro h
    rcases get_all_data_for_profile_ok_shape env pid parent a _ t h with ⟨df, ht⟩
    have hfun : t = resetIndex (df.filter (fun p =>
        match rowGet p.2 "Area Code" with
        | some v => codes.contains v
        | none => false)) := by
      rw [ht]; simp [applyAreaFilter, pyTruthy, hcodes]
    constructor
    · intro p hp
      rw [hfun] at hp
      rcases rowGet_resetIndex_mem _ p hp with ⟨q, hq, hpq⟩
      have hqf := (List.mem_filter.1 hq).2
      rw [hpq]
      cases hv : rowGet q.2 "Area Code" with
      | none => rw [hv] at hqf; simp at hqf
      | some v => rw [hv] at hqf; exact ⟨v, rfl, hqf⟩
    · rw [hfun]; exact resetIndex_fst _
  · intro h
    rcases get_all_data_for_profile_ok_shape env pid parent a _ t h with ⟨df, ht⟩
    have hfun : t = resetIndex (df.filter (fun p =>
        match rowGet p.2 "Area Code" with
        | some v => v == code
        | none => false)) := by
      rw [ht]; simp [applyAreaFilter, pyTruthy, hcode]
    constructor
    · intro p hp
      rw [hfun] at hp
      rcases rowGet_resetIndex_mem _ p hp with ⟨q, hq, hpq⟩
      have hqf := (List.mem_filter.1 hq).2
      rw [hpq]
      cases hv : rowGet q.2 "Area Code" with
      | none => rw [hv] at hqf; simp at hqf
      | some v =>
        rw [hv] at hqf
        simp at hqf
        exact congrArg some hqf
    · rw [hfun]; exact resetIndex_fst _

/-- A service with a single area type (1) for which the profile-data CSV has
two rows, with area codes `E12000001` and `X`. -/
def c8Env : Env where
  getJson := fun _ => .null
  readCsv := fun url =>
    if url = profileDataUrl "1" "15" "9" then
      .ok [[("Area Code", "E12000001"), ("Value", "5")],
           [("Area Code", "X"), ("Value", "6")]]
    else .httpNotFound
  csvNoVerify := fun _ => .ok []

/-- C8 counterexample: called with `filter_by_area_codes=[]` — a list, as the
claim allows — the function returns the table unfiltered (the row with area
code `X` survives although `X` is not among the given codes) and does not
reset the index, because the empty list is falsy and skips the filter
block. -/
theorem all_data_for_profile_empty_filter_list_not_filtered :
    (get_all_data_for_profile c8Env "9" "15" (.int 1) (.list [])).2 =
      .ok [(0, [("Area Code", "E12000001"), ("Value", "5")]),
           (1, [("Area Code", "X"), ("Value", "6")])] ∧
    (([] : List String).contains "X") = false := ⟨rfl, rfl⟩

/-- Witness for C8 (amended) with `filter_by_area_codes=["E12000001"]` over
one merged area-type fetch. -/
theorem all_data_for_profile_area_code_filter_witness :
    (∀ p ∈ [(0, [("index", "0"), ("Area Code", "E12000001"), ("Value", "5")])],
      ∃ v, rowGet (Prod.snd p) "Area Code" = some v ∧
        (["E12000001"].contains v) = true) ∧
    ([(0, [("index", "0"), ("Area Code", "E12000001"), ("Value", "5")])].map
        Prod.fst =
      List.range
        [(0, [("index", "0"), ("Area Code", "E12000001"), ("Value", "5")])].length) :=
  (all_data_for_profile_area_code_filter c8Env "9" "15" (.int 1)
    ["E12000001"] "E12000001" _ rfl rfl).1 rfl

/-! ## Claim C3 -/

/-- `scalarEq` only ever identifies equal values. -/
theorem scalarEq_eq {a b : JVal} (h : scalarEq a b = true) : a = b := by
  cases a <;> cases b <;> simp_all [scalarEq]

/-- Every entry of `insertScalar d k v` is an entry of `d` or the inserted
pair itself. -/
theorem insertScalar_mem {d : PyDict} {k v : JVal} {p : JVal × JVal}
    (h : p ∈ insertScalar d k v) : p ∈ d ∨ p = (k, v) := by
  induction d with
  | nil => simpa [insertScalar] using h
  | cons q rest ih =>
    obtain ⟨k0, v0⟩ := q
    by_cases hk : scalarEq k0 k = true
    · simp only [insertScalar, hk, if_true] at h
      rcases List.mem_cons.1 h with h1 | h1
      · right; rw [h1, scalarEq_eq hk]
      · left; exact List.mem_cons_of_mem _ h1
    · simp only [insertScalar, hk, if_false, Bool.false_eq_true] at h
      rcases List.mem_cons.1 h with h1 | h1
      · left; exact h1 ▸ List.mem_cons_self _ _
      · rcases ih h1 with h2 | h2
        · left; exact List.mem_cons_of_mem _ h2
        · right; exact h2

/-- The key set after `insertScalar` is the old key set plus the new key. -/
theorem mem_keys_insertScalar {d : PyDict} {k v kk : JVal} :
    kk ∈ (insertScalar d k v).map Prod.fst ↔
      (kk ∈ d.map Prod.fst ∨ kk = k) := by
  induction d with
  | nil => simp [insertScalar]
  | cons q rest ih =>
    obtain ⟨k0, v0⟩ := q
    by_cases hk : scalarEq k0 k = true
    · have hk0 : k0 = k := scalarEq_eq hk
      subst hk0
      simp only [insertScalar, hk, if_true, List.map_cons, List.mem_cons]
      tauto
    · simp only [insertScalar, hk, if_false, Bool.false_eq_true,
        List.map_cons, List.mem_cons, ih]
      tauto

/-- Popping `attr` removes it: the filtered object has no `attr` binding. -/
theorem objLookup_filter_not (o : List (String × JVal)) (attr : String) :
    objLookup (o.filter (fun p => p.1 != attr)) attr = none := by
  induction o with
  | nil => rfl
  | cons q rest ih =>
    obtain ⟨k, v⟩ := q
    by_cases hk : k = attr
    · subst hk
      simpa [List.filter] using ih
    · have hkb : (k != attr) = true := by simp [hk]
      simp [List.filter, hkb, objLookup, hk, ih]

/-- Loop invariant for `make_request`: when `attr` is present (with a
hashable value) in every object, the loop succeeds, every stored value is an
object with `attr` removed, and the key set is the old key set plus the
popped values. -/
theorem makeReqLoop_spec (attr : String) :
    ∀ (objs : List (List (String × JVal))) (d : PyDict),
      (∀ o ∈ objs, (objLookup o attr).isSome = true) →
      (∀ o ∈ objs, isHashable (objGet o attr) = true) →
      ∃ d2, makeReqLoop attr (objs.map JVal.obj) d = .ok d2 ∧
        (∀ p ∈ d2, p ∈ d ∨ ∃ o2, p.2 = JVal.obj o2 ∧ objLookup o2 attr = none) ∧
        (∀ kk, kk ∈ d2.map Prod.fst ↔
          (kk ∈ d.map Prod.fst ∨ ∃ o ∈ objs, objLookup o attr = some kk)) := by
  intro objs
  induction objs with
  | nil =>
    intro d _ _
    exact ⟨d, rfl, fun p hp => Or.inl hp, by simp⟩
  | cons o rest ih =>
    intro d hpres hhash
    obtain ⟨v, hv⟩ : ∃ v, objLookup o attr = some v :=
      Option.isSome_iff_exists.1 (hpres o (by simp))
    have hh : isHashable v = true := by
      have h2 := hhash o (by simp)
      rwa [objGet, hv, Option.getD_some] at h2
    obtain ⟨d2, hd2, hvals, hkeys⟩ :=
      ih (insertScalar d v (.obj (o.filter (fun p => p.1 != attr))))
        (fun o2 ho2 => hpres o2 (by simp [ho2]))
        (fun o2 ho2 => hhash o2 (by simp [ho2]))
    refine ⟨d2, ?_, ?_, ?_⟩
    · simp only [List.map_cons, makeReqLoop, hv, dictInsert, hh, if_true]
      exact hd2
    · intro p hp
      rcases hvals p hp with hmem | hex
      · rcases insertScalar_mem hmem with h2 | h2
        · exact Or.inl h2
        · right
          exact ⟨o.filter (fun p => p.1 != attr), by rw [h2],
            objLookup_filter_not o attr⟩
      · exact Or.inr hex
    · intro kk
      rw [hkeys kk, mem_keys_insertScalar]
      constructor
      · rintro ((h2 | h2) | h2)
        · exact Or.inl h2
        · exact Or.inr ⟨o, by simp, by rw [hv, h2]⟩
        · rcases h2 with ⟨o2, ho2, hl⟩
          exact Or.inr ⟨o2, by simp [ho2], hl⟩
      · rintro (h2 | ⟨o2, ho2, hl⟩)
        · exact Or.inl (Or.inl h2)
        · rcases List.mem_cons.1 ho2 with h3 | h3
          · subst h3
            rw [hv] at hl
            exact Or.inl (Or.inr (Option.some_inj.1 hl).symm)
          · exact Or.inr ⟨o2, h3, hl⟩

/-- C3: `make_request` in pop mode, on a response whose objects all carry the
key field, returns a mapping in which the key field is absent from every
value record and whose key set is exactly the set of key-field values of the
input objects. -/
theorem make_request_pop_mode (env : Env) (url attr : String)
    (objs : List (List (String × JVal)))
    (hresp : env.getJson url = .arr (objs.map JVal.obj))
    (hpres : objs.all (fun o => (objLookup o attr).isSome) = true)
    (hhash : objs.all (fun o => isHashable (objGet o attr)) = true) :
    ∃ d, make_request env url attr = .ok d ∧
      (∀ p ∈ d, ∃ o2, p.2 = JVal.obj o2 ∧ objLookup o2 attr = none) ∧
      (∀ kk, kk ∈ d.map Prod.fst ↔ ∃ o ∈ objs, objLookup o attr = some kk) := by
  rw [List.all_eq_true] at hpres hhash
  obtain ⟨d, hd, hvals, hkeys⟩ := makeReqLoop_spec attr objs [] hpres hhash
  refine ⟨d, ?_, ?_, ?_⟩
  · simp [make_request, hresp, hd]
  · intro p hp
    rcases hvals p hp with h | h
    · simp at h
    · exact h
  · intro kk
    rw [hkeys kk]
    simp

/-- Two age records keyed by `Id`. -/
def c3Env : Env where
  getJson := fun _ =>
    .arr [.obj [("Id", .int 1), ("Name", .str "0-4 yrs")],
          .obj [("Id", .int 2), ("Name", .str "5-9 yrs")]]
  readCsv := fun _ => .ok []
  csvNoVerify := fun _ => .ok []

/-- Witness for C3 on two objects keyed by `Id`. -/
theorem make_request_pop_mode_witness :
    ∃ d, make_request c3Env (base_url ++ "ages") "Id" = .ok d ∧
      (∀ p ∈ d, ∃ o2, Prod.snd p = JVal.obj o2 ∧ objLookup o2 "Id" = none) ∧
      (∀ kk, kk ∈ d.map Prod.fst ↔
        ∃ o ∈ [[("Id", JVal.int 1), ("Name", JVal.str "0-4 yrs")],
               [("Id", JVal.int 2), ("Name", JVal.str "5-9 yrs")]],
          objLookup o "Id" = some kk) :=
  make_request_pop_mode c3Env (base_url ++ "ages") "Id"
    [[("Id", .int 1), ("Name", .str "0-4 yrs")],
     [("Id", .int 2), ("Name", .str "5-9 yrs")]] rfl rfl rfl

/-! ## Claim C9 -/

/-- A response that is a list of objects round-trips through the iteration
guard. -/
theorem objsOf_map (objs : List (List (String × JVal))) :
    objsOf (objs.map JVal.obj) = .ok objs := by
  induction objs with
  | nil => rfl
  | cons o rest ih =>
    rw [List.map_cons, objsOf, ih]
    rfl

/-- Every entry of a dict built from `pairs` over `d0` is an initial entry
or one of the inserted pairs. -/
theorem buildDict_mem :
    ∀ (pairs : List (JVal × JVal)) (d0 d : PyDict),
      buildDict pairs d0 = .ok d → ∀ p ∈ d, p ∈ d0 ∨ p ∈ pairs := by
  intro pairs
  induction pairs with
  | nil =>
    intro d0 d h p hp
    simp only [buildDict, Except.ok.injEq] at h
    subst h
    exact Or.inl hp
  | cons q rest ih =>
    obtain ⟨k, v⟩ := q
    intro d0 d h p hp
    rw [buildDict] at h
    by_cases hh : isHashable k = true
    · rw [dictInsert, if_pos hh] at h
      rcases ih _ _ h p hp with h2 | h2
      · rcases insertScalar_mem h2 with h3 | h3
        · exact Or.inl h3
        · exact Or.inr (by simp [h3])
      · exact Or.inr (by simp [h2])
    · rw [dictInsert, if_neg hh] at h
      exact Except.noConfusion h

/-- C9: `get_data_in_dict` in pick mode: with the key field unset, an empty
response list raises the index error, and a nonempty one defaults the key
field to the first key of the first object; with the key field set, each
result entry maps an object's key-field value to that object's value-field
value when a value field is given, and to the whole object otherwise. -/
theorem get_data_in_dict_pick_mode (env : Env) (url1 url2 : String)
    (val : Option String) (k0 : String) (v0 : JVal)
    (otail : List (String × JVal)) (restObjs : List (List (String × JVal)))
    (hempty : env.getJson url1 = .arr [])
    (hresp : env.getJson url2 =
      .arr ((((k0, v0) :: otail) :: restObjs).map JVal.obj)) :
    (get_data_in_dict env url1 none val = .error .indexError) ∧
    (get_data_in_dict env url2 none val =
      get_data_in_dict env url2 (some k0) val) ∧
    (∀ (url : String) (objs : List (List (String × JVal))) (k v : String)
      (d : PyDict),
      env.getJson url = .arr (objs.map JVal.obj) →
      get_data_in_dict env url (some k) (some v) = .ok d →
      ∀ p ∈ d, ∃ o ∈ objs, p.1 = objGet o k ∧ p.2 = objGet o v) ∧
    (∀ (url : String) (objs : List (List (String × JVal))) (k : String)
      (d : PyDict),
      env.getJson url = .arr (objs.map JVal.obj) →
      get_data_in_dict env url (some k) none = .ok d →
      ∀ p ∈ d, ∃ o ∈ objs, p.1 = objGet o k ∧ p.2 = JVal.obj o) := by
  refine ⟨?_, ?_, ?_, ?_⟩
  · unfold get_data_in_dict
    rw [hempty]
    rfl
  · simp only [get_data_in_dict, hresp, objsOf_map]
    rfl
  · intro url objs k v d hr hok p hp
    simp only [get_data_in_dict, hr, objsOf_map] at hok
    rcases buildDict_mem _ _ _ hok p hp with h | h
    · simp at h
    · rcases List.mem_map.1 h with ⟨o, ho, hpo⟩
      exact ⟨o, ho, by rw [← hpo], by rw [← hpo]⟩
  · intro url objs k d hr hok p hp
    simp only [get_data_in_dict, hr, objsOf_map] at hok
    rcases buildDict_mem _ _ _ hok p hp with h | h
    · simp at h
    · rcases List.mem_map.1 h with ⟨o, ho, hpo⟩
      exact ⟨o, ho, by rw [← hpo], by rw [← hpo]⟩

/-- Two sex records on the `sexes` sub-resource; every other URL returns an
empty list. -/
def c9Env : Env where
  getJson := fun url =>
    if url = base_url ++ "sexes" then
      .arr [.obj [("Id", .int 1), ("Name", .str "Male")],
            .obj [("Id", .int 2), ("Name", .str "Female")]]
    else .arr []
  readCsv := fun _ => .ok []
  csvNoVerify := fun _ => .ok []

/-- Witness for C9: empty-list error, key defaulting to `Id`, and the two
pick-mode value shapes on the `sexes` records. -/
theorem get_data_in_dict_pick_mode_witness :
    (get_data_in_dict c9Env (base_url ++ "ages") none (some "Name") =
      .error .indexError) ∧
    (get_data_in_dict c9Env (base_url ++ "sexes") none (some "Name") =
      get_data_in_dict c9Env (base_url ++ "sexes") (some "Id") (some "Name")) ∧
    (∀ p ∈ [((JVal.int 1), JVal.str "Male"), ((JVal.int 2), JVal.str "Female")],
      ∃ o ∈ [[("Id", JVal.int 1), ("Name", JVal.str "Male")],
             [("Id", JVal.int 2), ("Name", JVal.str "Female")]],
        Prod.fst p = objGet o "Id" ∧ Prod.snd p = objGet o "Name") ∧
    (∀ p ∈ [((JVal.int 1), JVal.obj [("Id", JVal.int 1), ("Name", JVal.str "Male")]),
            ((JVal.int 2), JVal.obj [("Id", JVal.int 2), ("Name", JVal.str "Female")])],
      ∃ o ∈ [[("Id", JVal.int 1), ("Name", JVal.str "Male")],
             [("Id", JVal.int 2), ("Name", JVal.str "Female")]],
        Prod.fst p = objGet o "Id" ∧ Prod.snd p = JVal.obj o) := by
  have h := get_data_in_dict_pick_mode c9Env (base_url ++ "ages")
    (base_url ++ "sexes") (some "Name") "Id" (.int 1)
    [("Name", .str "Male")] [[("Id", .int 2), ("Name", .str "Female")]]
    rfl rfl
  exact ⟨h.1, h.2.1,
    h.2.2.1 (base_url ++ "sexes")
      [[("Id", .int 1), ("Name", .str "Male")],
       [("Id", .int 2), ("Name", .str "Female")]] "Id" "Name" _ rfl rfl,
    h.2.2.2 (base_url ++ "sexes")
      [[("Id", .int 1), ("Name", .str "Male")],
       [("Id", .int 2), ("Name", .str "Female")]] "Id" _ rfl rfl⟩

/-! ## Claim C7 -/

/-- The match test of `get_profile_by_name`: the lower-cased search term
occurs in the profile's lower-cased `Name`. -/
def profileMatches (term : String) (p : JVal) : Bool :=
  match p with
  | .obj o =>
    match objGet o "Name" with
    | .str s => strIn (pyLower term) (pyLower s)
    | _ => false
  | _ => false

/-- Pairwise distinctness of a key list under Python key equality. -/
def distinctKeys : List JVal → Bool
  | [] => true
  | k :: rest => rest.all (fun k2 => !scalarEq k k2) && distinctKeys rest

/-- Inserting a key no existing entry equals appends the pair. -/
theorem insertScalar_fresh {d : PyDict} {k : JVal} (v : JVal)
    (h : d.all (fun p => !scalarEq p.1 k) = true) :
    insertScalar d k v = d ++ [(k, v)] := by
  induction d with
  | nil => rfl
  | cons q rest ih =>
    obtain ⟨k0, v0⟩ := q
    rw [List.all_cons, Bool.and_eq_true] at h
    have h1 : scalarEq k0 k = false := by
      have := h.1
      simpa using this
    simp [insertScalar, h1, ih h.2]

/-- Building a dict from pairwise-distinct hashable keys that are all fresh
for the initial dict appends the pairs verbatim. -/
theorem buildDict_distinct :
    ∀ (pairs : List (JVal × JVal)) (d0 : PyDict),
      pairs.all (fun q => isHashable q.1) = true →
      pairs.all (fun q => d0.all (fun p => !scalarEq p.1 q.1)) = true →
      distinctKeys (pairs.map Prod.fst) = true →
      buildDict pairs d0 = .ok (d0 ++ pairs) := by
  intro pairs
  induction pairs with
  | nil => intro d0 _ _ _; simp [buildDict]
  | cons q rest ih =>
    obtain ⟨k, v⟩ := q
    intro d0 hh hf hd
    rw [List.all_cons, Bool.and_eq_true] at hh hf
    simp only [List.map_cons, distinctKeys, Bool.and_eq_true] at hd
    have hfresh : d0.all (fun p => !scalarEq p.1 k) = true := hf.1
    have hstep : buildDict ((k, v) :: rest) d0 =
        buildDict rest (insertScalar d0 k v) := by
      rw [buildDict, dictInsert, if_pos hh.1]
      rfl
    rw [hstep, insertScalar_fresh v hfresh]
    have hfr : rest.all
        (fun q => (d0 ++ [(k, v)]).all (fun p => !scalarEq p.1 q.1)) = true := by
      rw [List.all_eq_true]
      intro q hq
      rw [List.all_append, Bool.and_eq_true]
      refine ⟨(List.all_eq_true.1 hf.2) q hq, ?_⟩
      rw [List.all_eq_true]
      intro p hp
      have hp2 : p = (k, v) := by simpa using hp
      subst hp2
      exact (List.all_eq_true.1 hd.1) q.1 (List.mem_map_of_mem Prod.fst hq)
    rw [ih (d0 ++ [(k, v)]) hh.2 hfr hd.2]
    simp

/-- `getLast?` of a cons in accumulator form. -/
theorem optGetLast_cons {α : Type} (a : α) (l : List α) :
    (a :: l).getLast? = l.getLast?.or (some a) := by
  cases l with
  | nil => rfl
  | cons b t =>
    rw [List.getLast?_cons_cons]
    obtain ⟨y, hy⟩ := Option.isSome_iff_exists.1
      (List.getLast?_isSome.2 (by simp) : ((b :: t).getLast?).isSome = true)
    rw [hy]
    rfl

/-- The search loop returns the last matching value, falling back to the
accumulator, when every value is an object with a string `Name`. -/
theorem profileSearchLoop_spec (term : String) :
    ∀ (vals : List JVal) (acc : Option JVal),
      (∀ p ∈ vals, ∃ o s, p = JVal.obj o ∧ objGet o "Name" = JVal.str s) →
      profileSearchLoop term vals acc =
        .ok (((vals.filter (profileMatches term)).getLast?).or acc) := by
  intro vals
  induction vals with
  | nil => intro acc _; rfl
  | cons p rest ih =>
    intro acc h
    obtain ⟨o, s, hp, hs⟩ := h p (by simp)
    subst hp
    have hstep : profileSearchLoop term (JVal.obj o :: rest) acc =
        profileSearchLoop term rest
          (if strIn (pyLower term) (pyLower s) then some (JVal.obj o) else acc) := by
      simp only [profileSearchLoop]
      rw [hs]
    rw [hstep, ih _ (fun q hq => h q (by simp [hq]))]
    by_cases hm : strIn (pyLower term) (pyLower s) = true
    · have hpm : profileMatches term (JVal.obj o) = true := by
        simp [profileMatches, hs, hm]
      rw [if_pos hm, List.filter_cons, if_pos hpm, optGetLast_cons,
        Option.or_assoc]
      rfl
    · have hmf : strIn (pyLower term) (pyLower s) = false :=
        Bool.not_eq_true _ ▸ Bool.of_not_eq_true hm
      have hpm : profileMatches term (JVal.obj o) = false := by
        simp [profileMatches, hs, hmf]
      rw [if_neg hm, List.filter_cons, if_neg (by simp [hpm])]

/-- C7: `get_profile_by_name` matches the search term case-insensitively as
a substring of every profile's `Name` in source iteration order; the profile
returned is the last matching one in that order, and when none matches a
typed not-found value (the `Profile could not be found` message, not an
exception) is returned. -/
theorem get_profile_by_name_last_match (env : Env) (term : String)
    (k0 : String) (v0 : JVal) (otail : List (String × JVal))
    (restObjs : List (List (String × JVal)))
    (hresp : env.getJson profilesUrl =
      .arr ((((k0, v0) :: otail) :: restObjs).map JVal.obj))
    (hhash : (((k0, v0) :: otail) :: restObjs).all
      (fun o => isHashable (objGet o k0)) = true)
    (hdist : distinctKeys ((((k0, v0) :: otail) :: restObjs).map
      (fun o => objGet o k0)) = true)
    (hnames : ∀ o ∈ ((k0, v0) :: otail) :: restObjs,
      ∃ s, objGet o "Name" = JVal.str s) :
    get_profile_by_name env term =
      .ok (match ((((k0, v0) :: otail) :: restObjs).map JVal.obj
            |>.filter (profileMatches term)).getLast? with
        | some p => .found p
        | none => .notFound) := by
  have hall : get_all_profiles env =
      .ok ((((k0, v0) :: otail) :: restObjs).map
        (fun o => (objGet o k0, JVal.obj o))) := by
    unfold get_all_profiles
    simp only [get_data_in_dict, hresp, objsOf_map]
    have hbd := buildDict_distinct
      ((((k0, v0) :: otail) :: restObjs).map
        (fun o => (objGet o k0, JVal.obj o))) []
      (by simpa [List.all_map, Function.comp] using hhash)
      (by simp)
      (by simpa [List.map_map, Function.comp] using hdist)
    simpa using hbd
  have hvals : dictValues ((((k0, v0) :: otail) :: restObjs).map
      (fun o => (objGet o k0, JVal.obj o))) =
      (((k0, v0) :: otail) :: restObjs).map JVal.obj := by
    simp [dictValues, List.map_map, Function.comp]
  have hloop := profileSearchLoop_spec term
    ((((k0, v0) :: otail) :: restObjs).map JVal.obj) none
    (by
      intro p hp
      rcases List.mem_map.1 hp with ⟨o, ho, hpo⟩
      rcases hnames o ho with ⟨s, hso⟩
      exact ⟨o, s, hpo.symm, hso⟩)
  cases hlast : ((((k0, v0) :: otail) :: restObjs).map JVal.obj
      |>.filter (profileMatches term)).getLast? with
  | none =>
    simp only [get_profile_by_name, hall, hvals, hloop, hlast, Option.or_none]
  | some p =>
    have hpm : profileMatches term p = true :=
      (List.mem_filter.1 (List.mem_of_mem_getLast? hlast)).2
    simp only [get_profile_by_name, hall, hvals, hloop, hlast, Option.or_none]
    cases p with
    | obj o =>
      cases o with
      | nil => simp [profileMatches, objGet, objLookup] at hpm
      | cons b o2 => rfl
    | null => simp [profileMatches] at hpm
    | str s => simp [profileMatches] at hpm
    | int n => simp [profileMatches] at hpm
    | arr l => simp [profileMatches] at hpm

/-- Two profiles, `Fingertips Search A` then `Fingertips Search B`, on the
profiles sub-resource. -/
def c7Env : Env where
  getJson := fun url =>
    if url = profilesUrl then
      .arr [.obj [("Id", .int 1), ("Name", .str "Fingertips Search A")],
            .obj [("Id", .int 2), ("Name", .str "Fingertips Search B")]]
    else .null
  readCsv := fun _ => .ok []
  csvNoVerify := fun _ => .ok []

/-- Witness for C7: the term `Search` matches both profiles and returns the
later B profile; a term matching nothing returns the not-found value. -/
theorem get_profile_by_name_last_match_witness :
    (get_profile_by_name c7Env "Search" =
      .ok (.found (.obj [("Id", .int 2), ("Name", .str "Fingertips Search B")]))) ∧
    (get_profile_by_name c7Env "Diabetes" = .ok .notFound) :=
  ⟨get_profile_by_name_last_match c7Env "Search" "Id" (.int 1)
      [("Name", .str "Fingertips Search A")]
      [[("Id", .int 2), ("Name", .str "Fingertips Search B")]]
      rfl rfl rfl
      (by
        intro o ho
        fin_cases ho
        · exact ⟨"Fingertips Search A", rfl⟩
        · exact ⟨"Fingertips Search B", rfl⟩),
   get_profile_by_name_last_match c7Env "Diabetes" "Id" (.int 1)
      [("Name", .str "Fingertips Search A")]
      [[("Id", .int 2), ("Name", .str "Fingertips Search B")]]
      rfl rfl rfl
      (by
        intro o ho
        fin_cases ho
        · exact ⟨"Fingertips Search A", rfl⟩
        · exact ⟨"Fingertips Search B", rfl⟩)⟩
